import Mathlib

/-!
Verification development for the MCPNotificationServer repository.

The repository exposes one MCP tool, `task_complete`, over three transport
variants: a stdio server (`server.js`), an HTTP server with an SSE endpoint
and a direct JSON-RPC POST endpoint (`http-server.js`), and a legacy stdio
variant (`src/unnamed/part_001`).  The definitions below are a shallow
embedding of the JavaScript source: module-level environment state becomes an
explicit `Env` record, JavaScript truthiness is modelled on `Option` values,
JavaScript strings are modelled as lists of UTF-16 code units where the code
manipulates message text (`length` / `substring` in JavaScript operate on
UTF-16 code units), and thrown errors become an explicit error type.
-/

namespace MCPNotify

/-- JavaScript primitive values, used for JSON-RPC `id` fields. -/
inductive JsPrim where
  | jsNull
  | jsBool (b : Bool)
  | jsNum (n : Int)
  | jsStr (s : String)
deriving DecidableEq, Repr

/-- JavaScript truthiness of a primitive value (`0`, `""`, `false`, `null`
are falsy). -/
def JsPrim.truthy : JsPrim → Bool
  | .jsNull => false
  | .jsBool b => b
  | .jsNum n => n != 0
  | .jsStr s => !s.data.isEmpty

/-- The JavaScript expression `x || null` applied to a possibly absent
(`undefined`) value, as in `req.body?.id || null` (http-server.js line 439)
and `request.id || null` (http-server.js line 428). -/
def jsOrNull : Option JsPrim → JsPrim
  | none => .jsNull
  | some v => if v.truthy then v else .jsNull

/-- A JavaScript string viewed as its sequence of UTF-16 code units, the
units on which `String.prototype.length` and `String.prototype.substring`
operate. -/
abbrev U16Str := List Nat

/-- The three-character truncation marker `'...'` appended by the source
(code unit 46 is `.`). -/
def ellipsis : U16Str := [46, 46, 46]

/-- JavaScript truthiness of a possibly absent string value (absent and `""`
are falsy). -/
def truthyStr : Option String → Bool
  | none => false
  | some s => !s.data.isEmpty

/-- JavaScript truthiness of a possibly absent message text. -/
def truthyU16 : Option U16Str → Bool
  | none => false
  | some s => !s.isEmpty

/-- Number of Unicode characters (code points) encoded by a UTF-16 code-unit
sequence: a high surrogate (0xD800–0xDBFF) followed by a low surrogate
(0xDC00–0xDFFF) encodes a single character. -/
def charLen : List Nat → Nat
  | [] => 0
  | [_] => 1
  | u :: v :: rest =>
    if (55296 ≤ u ∧ u ≤ 56319) ∧ (56320 ≤ v ∧ v ≤ 57343) then 1 + charLen rest
    else 1 + charLen (v :: rest)

/-- Models the source's `recipient.startsWith('+')` test on a JavaScript
string (true exactly when the first code unit is `+`). -/
def jsStartsWithPlus (s : String) : Bool :=
  match s.data with
  | [] => false
  | c :: _ => c = '+'

/-- Naive list-infix test, used to state substring-containment facts about
error messages. -/
def isPrefixOfL : List Char → List Char → Bool
  | [], _ => true
  | _ :: _, [] => false
  | a :: as, b :: bs => a = b && isPrefixOfL as bs

/-- `isInfixOfL needle hay` is true when `needle` occurs contiguously in
`hay`. -/
def isInfixOfL : List Char → List Char → Bool
  | n, [] => isPrefixOfL n []
  | n, c :: rest' => isPrefixOfL n (c :: rest') || isInfixOfL n rest'

/-- `strContains hay needle`: `needle` occurs as a substring of `hay`. -/
def strContains (hay needle : String) : Bool :=
  isInfixOfL needle.data hay.data

/-- The provider's response object for a successful send
(`twilioMessage.sid`, `twilioMessage.status`). -/
structure TwilioMsg where
  sid : String
  status : String
deriving DecidableEq, Repr

/-- One outbound provider call as issued by the source:
`twilioClient.messages.create({body, from, to})`. -/
structure SendReq where
  body : U16Str
  fromPhone : String
  toPhone : String
deriving DecidableEq, Repr

/-- The row inserted into the `sms_messages` table
(http-server.js lines 147–159, server.js lines 173–185). -/
structure SendRecord where
  message_sid : String
  from_phone : String
  to_phone : String
  original_message : U16Str
  sent_message : U16Str
  original_length : Nat
  sent_length : Nat
  truncated : Bool
  status : String
  sent_at : String
  twilio_status : String
deriving DecidableEq, Repr

/-- Possible behaviours of the persistence sink on one insert attempt:
a successful insert returning the row, an error value in the response
(`error` non-null), or a thrown exception. -/
inductive SinkOutcome where
  | inserted (row : SendRecord)
  | insertError (msg : String)
  | thrown (msg : String)

/-- Module-level environment state of the servers: the four Twilio-related
environment variables, the Supabase client (`none` models `supabase === null`,
i.e. unconfigured or failed initialization), the SMS provider's behaviour on
the k-th send attempt, and the current timestamp string. -/
structure Env where
  accountSid : Option String
  authToken : Option String
  twilioPhoneNumber : Option String
  defaultRecipient : Option String
  sink : Option (SendRecord → SinkOutcome)
  send : Nat → Except String TwilioMsg
  now : String

/-- `isTwilioConfigured()` of server.js lines 37–39:
`accountSid && authToken && twilioPhoneNumber && defaultRecipient`. -/
def isTwilioConfiguredServer (e : Env) : Bool :=
  truthyStr e.accountSid && truthyStr e.authToken &&
    truthyStr e.twilioPhoneNumber && truthyStr e.defaultRecipient

/-- `isTwilioConfigured()` of http-server.js lines 56–58: textually the same
four-way conjunction as in server.js. -/
def isTwilioConfiguredHttp (e : Env) : Bool :=
  truthyStr e.accountSid && truthyStr e.authToken &&
    truthyStr e.twilioPhoneNumber && truthyStr e.defaultRecipient

/-- `isTwilioConfigured()` of the legacy variant `src/unnamed/part_001`
lines 19–21: only the three credential variables, no default recipient. -/
def isTwilioConfiguredPart001 (e : Env) : Bool :=
  truthyStr e.accountSid && truthyStr e.authToken && truthyStr e.twilioPhoneNumber

/-- Whether `twilioClient` is non-null in server.js: the client is created at
startup exactly when `isTwilioConfigured()` holds (server.js lines 73–78). -/
def twilioClientServer (e : Env) : Bool := isTwilioConfiguredServer e

/-- Whether `twilioClient` is non-null in http-server.js
(lines 168–173). -/
def twilioClientHttp (e : Env) : Bool := isTwilioConfiguredHttp e

/-- Whether `twilioClient` is non-null in the legacy variant. -/
def twilioClientPart001 (e : Env) : Bool := isTwilioConfiguredPart001 e

/-- `isSupabaseConfigured()`: `supabase !== null`. -/
def isSupabaseConfigured (e : Env) : Bool := e.sink.isSome

/-- `logMessageToSupabase(messageData)` (http-server.js lines 66–89,
server.js lines 47–70): skips when unconfigured, returns the inserted row on
success, and returns `null` both when the insert reports an error and when an
exception is thrown — every failure is caught and swallowed. -/
def logMessageToSupabase (e : Env) (rec : SendRecord) : Option SendRecord :=
  match e.sink with
  | none => none
  | some sinkF =>
    match sinkF rec with
    | .inserted row => some row
    | .insertError _ => none
    | .thrown _ => none

/-- Errors thrown by the tool-call paths of the source.  The engine-raised
TypeErrors (dereferencing `undefined`) are modelled with fixed message texts;
their exact wording is JavaScript-engine dependent. -/
inductive JsError where
  | notConfigured
  | paramsDestructureTypeError
  | argsDestructureTypeError
  | missingMessage
  | startsWithTypeError
  | missingToPhoneNumber
  | e164Format
  | unknownTool (name : Option String)
  | provider (msg : String)
  | failedToSend (msg : String)
deriving DecidableEq, Repr

/-- The `.message` property of each thrown error, as surfaced to callers. -/
def JsError.message : JsError → String
  | .notConfigured => "Twilio client is not configured. Check environment variables."
  | .paramsDestructureTypeError => "TypeError: cannot destructure request.params as it is undefined"
  | .argsDestructureTypeError => "TypeError: cannot destructure args as it is undefined"
  | .missingMessage => "Message is required"
  | .startsWithTypeError => "TypeError: cannot read startsWith of undefined"
  | .missingToPhoneNumber => "to_phone_number is required"
  | .e164Format => "Phone number must be in E.164 format (start with +)"
  | .unknownTool name => "Unknown tool: " ++ name.getD "undefined"
  | .provider msg => msg
  | .failedToSend msg => "Failed to send SMS: " ++ msg

/-- Classification of the embedded errors against the taxonomy of spec §7:
`ValidationError` covers "missing message, missing/malformed recipient —
rejects before any external call".  The engine TypeError raised when the
resolved recipient is absent (`undefined.startsWith`) is the code path taken
exactly when the recipient is missing, so it falls in this class. -/
def JsError.isValidationError : JsError → Bool
  | .missingMessage => true
  | .startsWithTypeError => true
  | .missingToPhoneNumber => true
  | .e164Format => true
  | _ => false

/-- The `arguments` object of a `tools/call` request: both fields may be
absent. -/
structure ToolArgs where
  message : Option U16Str
  to_phone_number : Option String
deriving Repr

/-- The `result` object built by http-server.js lines 136–143 (this variant
includes the `recipient` field). -/
structure ToolResult where
  success : Bool
  message_sid : String
  truncated : Bool
  original_length : Nat
  sent_length : Nat
  recipient : String
deriving DecidableEq, Repr

/-- The `result` object built by server.js lines 164–170 and the legacy
variant (no `recipient` field). -/
structure ToolResultS where
  success : Bool
  message_sid : String
  truncated : Bool
  original_length : Nat
  sent_length : Nat
deriving DecidableEq, Repr

/-- Observable trace of one `executeTaskComplete` run: the returned value or
thrown error, the list of provider calls issued, and the persistence-append
outcome (`none` when the append step was never reached; `some r` records the
value `logMessageToSupabase` returned). -/
structure ExecTrace where
  outcome : Except JsError ToolResult
  sends : List SendReq
  logOutcome : Option (Option SendRecord)

/-- `executeTaskComplete(args)` of http-server.js lines 92–165, the dispatcher
behind the direct `POST /mcp` adapter.  Checks, in source order: Twilio
client configured; `args` destructurable; `message` truthy; recipient
(`to_phone_number || defaultRecipient`) resolvable and starting with `+`;
then truncates to 247 code units plus the ellipsis when the length exceeds
250, sends once via the provider (no surrounding try/catch: a provider
failure propagates as thrown), builds the result, and finally performs the
best-effort Supabase append whose value is discarded. -/
def executeTaskComplete (e : Env) (args? : Option ToolArgs) : ExecTrace :=
  if twilioClientHttp e then
    match args? with
    | none => ⟨.error .argsDestructureTypeError, [], none⟩
    | some a =>
      if truthyU16 a.message then
        let message := a.message.getD []
        let recipient? : Option String :=
          if truthyStr a.to_phone_number then a.to_phone_number else e.defaultRecipient
        match recipient? with
        | none => ⟨.error .startsWithTypeError, [], none⟩
        | some recipient =>
          if jsStartsWithPlus recipient then
            let originalLength := message.length
            let finalMessage :=
              if 250 < originalLength then message.take 247 ++ ellipsis else message
            let req : SendReq := ⟨finalMessage, e.twilioPhoneNumber.getD "", recipient⟩
            match e.send 0 with
            | .error m => ⟨.error (.provider m), [req], none⟩
            | .ok tw =>
              let result : ToolResult :=
                ⟨true, tw.sid, 250 < originalLength, originalLength,
                  finalMessage.length, recipient⟩
              let record : SendRecord :=
                ⟨tw.sid, e.twilioPhoneNumber.getD "", recipient, message, finalMessage,
                  originalLength, finalMessage.length, 250 < originalLength,
                  "sent", e.now, tw.status⟩
              ⟨.ok result, [req], some (logMessageToSupabase e record)⟩
          else ⟨.error .e164Format, [], none⟩
      else ⟨.error .missingMessage, [], none⟩
  else ⟨.error .notConfigured, [], none⟩

/-- Observable trace of one stdio-handler run (result lacks `recipient`). -/
structure ExecTraceS where
  outcome : Except JsError ToolResultS
  sends : List SendReq
  logOutcome : Option (Option SendRecord)

/-- The `CallToolRequestSchema` handler of server.js lines 120–204 (this
handler also serves the SSE transport in http-server.js lines 215–300, whose
body is the same up to the extra `recipient` result field there).  Unlike the
HTTP dispatcher, the provider call sits inside a try/catch that rethrows
`Failed to send SMS: <provider message>`. -/
def callToolServer (e : Env) (name : Option String) (args? : Option ToolArgs) : ExecTraceS :=
  if name = some "task_complete" then
    if twilioClientServer e then
      match args? with
      | none => ⟨.error .argsDestructureTypeError, [], none⟩
      | some a =>
        if truthyU16 a.message then
          let message := a.message.getD []
          let recipient? : Option String :=
            if truthyStr a.to_phone_number then a.to_phone_number else e.defaultRecipient
          match recipient? with
          | none => ⟨.error .startsWithTypeError, [], none⟩
          | some recipient =>
            if jsStartsWithPlus recipient then
              let originalLength := message.length
              let finalMessage :=
                if 250 < originalLength then message.take 247 ++ ellipsis else message
              let req : SendReq := ⟨finalMessage, e.twilioPhoneNumber.getD "", recipient⟩
              match e.send 0 with
              | .error m => ⟨.error (.failedToSend m), [req], none⟩
              | .ok tw =>
                let result : ToolResultS :=
                  ⟨true, tw.sid, 250 < originalLength, originalLength, finalMessage.length⟩
                let record : SendRecord :=
                  ⟨tw.sid, e.twilioPhoneNumber.getD "", recipient, message, finalMessage,
                    originalLength, finalMessage.length, 250 < originalLength,
                    "sent", e.now, tw.status⟩
                ⟨.ok result, [req], some (logMessageToSupabase e record)⟩
            else ⟨.error .e164Format, [], none⟩
        else ⟨.error .missingMessage, [], none⟩
    else ⟨.error .notConfigured, [], none⟩
  else ⟨.error (.unknownTool name), [], none⟩

/-- The `CallToolRequestSchema` handler of the legacy variant
`src/unnamed/part_001`: `to_phone_number` is itself required (no default
recipient exists in that variant) and there is no Supabase logging. -/
def callToolPart001 (e : Env) (name : Option String) (args? : Option ToolArgs) : ExecTraceS :=
  if name = some "task_complete" then
    if twilioClientPart001 e then
      match args? with
      | none => ⟨.error .argsDestructureTypeError, [], none⟩
      | some a =>
        if truthyU16 a.message then
          if truthyStr a.to_phone_number then
            let message := a.message.getD []
            let toPhone := a.to_phone_number.getD ""
            if jsStartsWithPlus toPhone then
              let originalLength := message.length
              let finalMessage :=
                if 250 < originalLength then message.take 247 ++ ellipsis else message
              let req : SendReq := ⟨finalMessage, e.twilioPhoneNumber.getD "", toPhone⟩
              match e.send 0 with
              | .error m => ⟨.error (.failedToSend m), [req], none⟩
              | .ok tw =>
                let result : ToolResultS :=
                  ⟨true, tw.sid, 250 < originalLength, originalLength, finalMessage.length⟩
                ⟨.ok result, [req], none⟩
            else ⟨.error .e164Format, [], none⟩
          else ⟨.error .missingToPhoneNumber, [], none⟩
        else ⟨.error .missingMessage, [], none⟩
    else ⟨.error .notConfigured, [], none⟩
  else ⟨.error (.unknownTool name), [], none⟩

/-- A tool descriptor as returned by the `tools/list` handlers (the input
schema abbreviated to its property names and its `required` list). -/
structure ToolDescriptor where
  name : String
  description : String
  propertyNames : List String
  required : List String
deriving DecidableEq, Repr

/-- The descriptor returned by http-server.js lines 363–392. -/
def taskCompleteDescriptorHttp : ToolDescriptor :=
  ⟨"task_complete", "Send SMS message via Twilio when a task is completed",
    ["message", "to_phone_number"], ["message"]⟩

/-- The descriptor returned by the server.js `ListToolsRequestSchema` handler
(lines 94–117): identical to the HTTP one. -/
def taskCompleteDescriptorServer : ToolDescriptor :=
  ⟨"task_complete", "Send SMS message via Twilio when a task is completed",
    ["message", "to_phone_number"], ["message"]⟩

/-- The descriptor returned by the legacy variant (part_001 lines 45–68):
`required` lists both `message` and `to_phone_number`. -/
def taskCompleteDescriptorPart001 : ToolDescriptor :=
  ⟨"task_complete", "Send SMS message via Twilio when a task is completed",
    ["message", "to_phone_number"], ["message", "to_phone_number"]⟩

/-- `tools/list` result of http-server.js. -/
def listToolsHttp : List ToolDescriptor := [taskCompleteDescriptorHttp]

/-- `tools/list` result of server.js. -/
def listToolsServer : List ToolDescriptor := [taskCompleteDescriptorServer]

/-- `tools/list` result of the legacy variant. -/
def listToolsPart001 : List ToolDescriptor := [taskCompleteDescriptorPart001]

/-- The `params` object of a JSON-RPC request body. -/
structure McpParams where
  name : Option String
  arguments : Option ToolArgs
deriving Repr

/-- The JSON-RPC request body received by `POST /mcp` (fields may be
absent). -/
structure McpRequest where
  method : Option String
  id : Option JsPrim
  params : Option McpParams
deriving Repr

/-- A JSON-RPC error object `{code, message, data?}`. -/
structure RpcError where
  code : Int
  message : String
  data : Option String
deriving DecidableEq, Repr

/-- The `result` payloads produced by the POST adapter.  A `tools/call`
success carries the `ToolResult` that the source serializes into
`content[0].text`. -/
inductive RpcResult where
  | initializeResult (protocolVersion serverName serverVersion : String)
  | toolsList (tools : List ToolDescriptor)
  | toolCallContent (r : ToolResult)
deriving DecidableEq, Repr

/-- A JSON-RPC response body.  `result` responses echo `request.id` verbatim
(possibly absent); `error` responses always carry an id computed with
`|| null`. -/
inductive RpcBody where
  | result (id : Option JsPrim) (r : RpcResult)
  | error (id : JsPrim) (e : RpcError)
deriving DecidableEq, Repr

/-- One HTTP response of the POST adapter. -/
inductive HttpResponse where
  | json (status : Nat) (body : RpcBody)
  | noBody (status : Nat)
deriving DecidableEq, Repr

/-- The body of the `app.post('/mcp')` try-block (http-server.js lines
332–433): routes `initialize`, `notifications/initialized`, `tools/list`,
`tools/call` and the unknown-method fallback; a thrown error is returned in
the `Except` error position for the catch wrapper.  The second component
lists the provider calls made. -/
def postMcpTry (e : Env) (req : McpRequest) : Except JsError HttpResponse × List SendReq :=
  if req.method = some "initialize" then
    (.ok (.json 200 (.result req.id
      (.initializeResult "2024-11-05" "twilio-sms-mcp-server" "1.0.0"))), [])
  else if req.method = some "notifications/initialized" then
    (.ok (.noBody 200), [])
  else if req.method = some "tools/list" then
    (.ok (.json 200 (.result req.id (.toolsList listToolsHttp))), [])
  else if req.method = some "tools/call" then
    match req.params with
    | none => (.error .paramsDestructureTypeError, [])
    | some p =>
      if p.name = some "task_complete" then
        let t := executeTaskComplete e p.arguments
        match t.outcome with
        | .error err => (.error err, t.sends)
        | .ok r => (.ok (.json 200 (.result req.id (.toolCallContent r))), t.sends)
      else (.error (.unknownTool p.name), [])
  else
    (.ok (.json 400 (.error (jsOrNull req.id) ⟨-32601, "Method not found", none⟩)), [])

/-- `app.post('/mcp')` (http-server.js lines 330–447): the try-block wrapped
in the catch handler of lines 435–446, which converts any thrown error into
an HTTP 500 carrying a JSON-RPC error envelope with code `-32603`, message
`"Internal error"`, the thrown error's message in `data`, and id
`req.body?.id || null`. -/
def postMcp (e : Env) (req : McpRequest) : HttpResponse × List SendReq :=
  match postMcpTry e req with
  | (.ok resp, s) => (resp, s)
  | (.error err, s) =>
    (.json 500 (.error (jsOrNull req.id) ⟨-32603, "Internal error", some err.message⟩), s)

/-- ASCII helper for writing concrete UTF-16 message texts. -/
def asciiU (s : String) : U16Str := s.data.map Char.toNat

/-- Fully configured concrete environment with a succeeding provider and no
persistence sink. -/
def envConfigured : Env :=
  { accountSid := some "AC123"
    authToken := some "tok"
    twilioPhoneNumber := some "+15550000000"
    defaultRecipient := some "+15550009999"
    sink := none
    send := fun _ => .ok ⟨"SM123", "queued"⟩
    now := "2026-01-01T00:00:00.000Z" }

/-- Concrete environment whose provider is unreachable. -/
def envProviderDown : Env :=
  { envConfigured with send := fun _ => .error "Connection refused" }

/-- Concrete environment with the three credential variables set but no
default recipient. -/
def envNoDefault : Env :=
  { envConfigured with defaultRecipient := none }

/-- Concrete unconfigured environment (no environment variables set). -/
def envUnconfigured : Env :=
  { accountSid := none, authToken := none, twilioPhoneNumber := none,
    defaultRecipient := none, sink := none,
    send := fun _ => .error "no provider", now := "2026-01-01T00:00:00.000Z" }

/-- A 251-character message consisting of 251 astral-plane characters
(U+1F600, encoded as the UTF-16 surrogate pair 0xD83D 0xDE00), hence 502
UTF-16 code units. -/
def msgAstral : U16Str := (List.replicate 251 ([55357, 56832] : List Nat)).flatten

/-- A UTF-16 code-unit sequence in which every unit is outside the surrogate
range encodes one character per unit. -/
theorem charLen_eq_length_of_bmp :
    ∀ l : List Nat, (∀ u ∈ l, u < 55296 ∨ 57343 < u) → charLen l = l.length := by
  intro l
  induction l with
  | nil => intro _; rfl
  | cons u rest ih =>
    intro h
    cases rest with
    | nil => rfl
    | cons v rest2 =>
      have hu : u < 55296 ∨ 57343 < u := h u (by simp)
      have hcond : ¬((55296 ≤ u ∧ u ≤ 56319) ∧ (56320 ≤ v ∧ v ≤ 57343)) := by
        rcases hu with h1 | h1 <;> omega
      have hrec := ih (fun x hx => h x (by simp [hx]))
      simp only [charLen, if_neg hcond, hrec, List.length_cons]
      omega

/-- Claim C1 (counterexample): `POST /mcp` with `method:"tools/call"` and
`params.name = "wrong_tool"` is answered with JSON-RPC error code `-32603`
(HTTP 500), not `-32601` as the claim states: the `Unknown tool` throw is
caught by the generic catch handler. -/
theorem unknown_tool_gives_32603_not_32601 :
    postMcp envUnconfigured
        ⟨some "tools/call", some (.jsNum 1), some ⟨some "wrong_tool", none⟩⟩ =
      (.json 500 (.error (.jsNum 1)
        ⟨-32603, "Internal error", some "Unknown tool: wrong_tool"⟩), []) ∧
    (-32603 : Int) ≠ -32601 := by
  exact ⟨rfl, by decide⟩

/-- Claim C1 (amended): for every `POST /mcp` request with method
`tools/call` whose `params.name` is not `task_complete`, the response is an
HTTP 500 carrying a JSON-RPC error envelope with code `-32603`, message
`Internal error`, and the `Unknown tool` text in `data`; no send is
attempted. -/
theorem post_mcp_unknown_tool_internal_error
    (e : Env) (idv : Option JsPrim) (nm : Option String) (args : Option ToolArgs)
    (h : nm ≠ some "task_complete") :
    postMcp e ⟨some "tools/call", idv, some ⟨nm, args⟩⟩ =
      (.json 500 (.error (jsOrNull idv)
        ⟨-32603, "Internal error", some ((JsError.unknownTool nm).message)⟩), []) := by
  simp [postMcp, postMcpTry, h]

/-- Witness for `post_mcp_unknown_tool_internal_error` at a concrete
request. -/
theorem post_mcp_unknown_tool_internal_error_witness :
    postMcp envUnconfigured
        ⟨some "tools/call", some (.jsNum 2), some ⟨some "other_tool", none⟩⟩ =
      (.json 500 (.error (.jsNum 2)
        ⟨-32603, "Internal error", some "Unknown tool: other_tool"⟩), []) := by
  have h := post_mcp_unknown_tool_internal_error envUnconfigured (some (.jsNum 2))
    (some "other_tool") none (by decide)
  simpa using h

/-- Claim C2 (counterexample): with a configured system whose provider fails
with `Connection refused`, the direct `POST /mcp` adapter answers with a
JSON-RPC error envelope none of whose text fields contains
`Failed to send SMS`: the message field is `Internal error` and the data
field is the provider's raw message. -/
theorem provider_failure_http_lacks_failed_to_send_prefix :
    postMcp envProviderDown
        ⟨some "tools/call", some (.jsNum 7),
          some ⟨some "task_complete", some ⟨some (asciiU "Task done"), some "+15550001111"⟩⟩⟩ =
      (.json 500 (.error (.jsNum 7) ⟨-32603, "Internal error", some "Connection refused"⟩),
        [⟨asciiU "Task done", "+15550000000", "+15550001111"⟩]) ∧
    strContains "Internal error" "Failed to send SMS" = false ∧
    strContains "Connection refused" "Failed to send SMS" = false := by
  exact ⟨rfl, rfl, rfl⟩

/-- Claim C2 (amended): on a provider send failure, the stdio/SSE tool-call
handler throws an error whose message is `Failed to send SMS: ` followed by
the provider's own message, with exactly one send attempt; the direct HTTP
POST adapter instead returns the `-32603` `Internal error` envelope whose
`data` field is the provider's raw message, likewise with exactly one send
attempt (no retry in either path). -/
theorem provider_failure_error_surface :
    (∀ (e : Env) (m : String) (msg : U16Str) (toP : String),
      twilioClientServer e = true → msg.isEmpty = false →
      truthyStr (some toP) = true → jsStartsWithPlus toP = true →
      e.send 0 = .error m →
      (callToolServer e (some "task_complete") (some ⟨some msg, some toP⟩)).outcome =
          .error (.failedToSend m) ∧
        (JsError.failedToSend m).message = "Failed to send SMS: " ++ m ∧
        (callToolServer e (some "task_complete") (some ⟨some msg, some toP⟩)).sends.length = 1) ∧
    (∀ (e : Env) (idv : Option JsPrim) (m : String) (msg : U16Str) (toP : String),
      twilioClientHttp e = true → msg.isEmpty = false →
      truthyStr (some toP) = true → jsStartsWithPlus toP = true →
      e.send 0 = .error m →
      (postMcp e ⟨some "tools/call", idv,
          some ⟨some "task_complete", some ⟨some msg, some toP⟩⟩⟩).fst =
        .json 500 (.error (jsOrNull idv) ⟨-32603, "Internal error", some m⟩) ∧
      (postMcp e ⟨some "tools/call", idv,
          some ⟨some "task_complete", some ⟨some msg, some toP⟩⟩⟩).snd.length = 1) := by
  constructor
  · intro e m msg toP hclient hne hto hplus hsend
    refine ⟨?_, rfl, ?_⟩ <;>
      simp [callToolServer, hclient, truthyU16, hne, hto, hplus, hsend]
  · intro e idv m msg toP hclient hne hto hplus hsend
    constructor <;>
      simp [postMcp, postMcpTry, executeTaskComplete, hclient, truthyU16, hne, hto, hplus,
        hsend, JsError.message]

/-- Witness for `provider_failure_error_surface` at concrete inputs. -/
theorem provider_failure_error_surface_witness :
    (callToolServer envProviderDown (some "task_complete")
        (some ⟨some (asciiU "done"), some "+15550001111"⟩)).outcome =
      .error (.failedToSend "Connection refused") ∧
    (postMcp envProviderDown ⟨some "tools/call", some (.jsNum 7),
        some ⟨some "task_complete", some ⟨some (asciiU "done"), some "+15550001111"⟩⟩⟩).snd.length = 1 := by
  refine ⟨(provider_failure_error_surface.1 envProviderDown "Connection refused"
      (asciiU "done") "+15550001111" rfl rfl rfl rfl rfl).1,
    (provider_failure_error_surface.2 envProviderDown (some (.jsNum 7)) "Connection refused"
      (asciiU "done") "+15550001111" rfl rfl rfl rfl rfl).2⟩

set_option maxRecDepth 40000 in
/-- Claim C3 (counterexample): for a 251-character message of astral-plane
characters (502 UTF-16 code units), the dispatcher reports
`original_length = 502`, which is not the input's character length 251; the
sent text also ends in a lone high surrogate (0xD83D), splitting the
character at the truncation boundary. -/
theorem truncation_counts_utf16_units_not_characters :
    charLen msgAstral = 251 ∧
    250 < charLen msgAstral ∧
    (executeTaskComplete envConfigured (some ⟨some msgAstral, some "+15550001111"⟩)).outcome =
      .ok ⟨true, "SM123", true, 502, 250, "+15550001111"⟩ ∧
    (502 : Nat) ≠ 251 ∧
    (msgAstral.take 247).getLast? = some 55357 ∧
    (55296 ≤ 55357 ∧ 55357 ≤ 56319) := by
  refine ⟨rfl, by decide, rfl, by decide, rfl, by decide⟩

/-- Claim C3 (amended): lengths and the truncation point are measured in
UTF-16 code units (the units of JavaScript `length`/`substring`), not
characters.  For every message longer than 250 code units the dispatcher
sends the first 247 code units plus the 3-unit ellipsis, reports
`truncated = true`, `sent_length = 250`, `original_length` equal to the code
unit length, and the first 247 code units of the sent text equal those of
the input; when every character of the input is a single code unit (no
surrogate pairs), code units coincide with characters, so the claim holds
as stated for such inputs. -/
theorem truncation_utf16_semantics
    (e : Env) (sid status : String) (msg : U16Str) (toP : String)
    (hclient : twilioClientHttp e = true)
    (hsend : e.send 0 = .ok ⟨sid, status⟩)
    (hto : truthyStr (some toP) = true)
    (hplus : jsStartsWithPlus toP = true)
    (hlen : 250 < msg.length) :
    (executeTaskComplete e (some ⟨some msg, some toP⟩)).sends =
      [⟨msg.take 247 ++ ellipsis, e.twilioPhoneNumber.getD "", toP⟩] ∧
    (executeTaskComplete e (some ⟨some msg, some toP⟩)).outcome =
      .ok ⟨true, sid, true, msg.length, 250, toP⟩ ∧
    (msg.take 247 ++ ellipsis).take 247 = msg.take 247 ∧
    ((∀ u ∈ msg, u < 55296 ∨ 57343 < u) → charLen msg = msg.length) := by
  have hne : msg.isEmpty = false := by
    cases msg with
    | nil => simp at hlen
    | cons a t => rfl
  have h247 : (msg.take 247).length = 247 := by
    simp [List.length_take]; omega
  refine ⟨?_, ?_, ?_, charLen_eq_length_of_bmp msg⟩
  · simp [executeTaskComplete, hclient, truthyU16, hne, hto, hsend, hlen, hplus]
  · simp [executeTaskComplete, hclient, truthyU16, hne, hto, hsend, hlen, hplus, ellipsis]
    omega
  · calc (msg.take 247 ++ ellipsis).take 247
        = (msg.take 247 ++ ellipsis).take (msg.take 247).length := by rw [h247]
      _ = msg.take 247 := List.take_left _ _

set_option maxRecDepth 40000 in
/-- Witness for `truncation_utf16_semantics` on a 300-unit ASCII message. -/
theorem truncation_utf16_semantics_witness :
    (executeTaskComplete envConfigured
        (some ⟨some (List.replicate 300 65), some "+15550001111"⟩)).outcome =
      .ok ⟨true, "SM123", true, 300, 250, "+15550001111"⟩ ∧
    charLen (List.replicate 300 65) = (List.replicate 300 65).length := by
  have h := truncation_utf16_semantics envConfigured "SM123" "queued"
    (List.replicate 300 65) "+15550001111" rfl rfl rfl rfl (by decide)
  exact ⟨h.2.1, h.2.2.2 (by intro u hu; left; have := List.eq_of_mem_replicate hu; omega)⟩

/-- Claim C4: a `tools/call` with no resolvable recipient fails with a
validation error before any send, across every tool-call handler: in the
legacy variant (the one variant in which a configured client does not imply
a configured default recipient, since no default exists there) a missing
`to_phone_number` is rejected with `to_phone_number is required`; in both
the HTTP dispatcher and the server.js handler a resolved recipient not
starting with `+` is rejected with the E.164 error; and in both of those
variants a configured client always implies a present default recipient
(initialization requires it), so the both-absent case cannot occur there. -/
theorem recipient_validation_before_send :
    (∀ (e : Env) (a : ToolArgs),
      twilioClientPart001 e = true → truthyU16 a.message = true →
      truthyStr a.to_phone_number = false →
      callToolPart001 e (some "task_complete") (some a) =
          ⟨.error .missingToPhoneNumber, [], none⟩ ∧
        JsError.missingToPhoneNumber.isValidationError = true) ∧
    (∀ (e : Env) (a : ToolArgs) (r : String),
      twilioClientHttp e = true → truthyU16 a.message = true →
      (if truthyStr a.to_phone_number then a.to_phone_number else e.defaultRecipient) = some r →
      jsStartsWithPlus r = false →
      executeTaskComplete e (some a) = ⟨.error .e164Format, [], none⟩ ∧
        JsError.e164Format.isValidationError = true) ∧
    (∀ (e : Env) (a : ToolArgs) (r : String),
      twilioClientServer e = true → truthyU16 a.message = true →
      (if truthyStr a.to_phone_number then a.to_phone_number else e.defaultRecipient) = some r →
      jsStartsWithPlus r = false →
      callToolServer e (some "task_complete") (some a) =
          ⟨.error .e164Format, [], none⟩ ∧
        JsError.e164Format.isValidationError = true) ∧
    (∀ e : Env, twilioClientHttp e = true → truthyStr e.defaultRecipient = true) ∧
    (∀ e : Env, twilioClientServer e = true → truthyStr e.defaultRecipient = true) := by
  refine ⟨?_, ?_, ?_, ?_, ?_⟩
  · intro e a hclient hmsg hto
    exact ⟨by simp [callToolPart001, hclient, hmsg, hto], rfl⟩
  · intro e a r hclient hmsg hres hplus
    exact ⟨by simp [executeTaskComplete, hclient, hmsg, hres, hplus], rfl⟩
  · intro e a r hclient hmsg hres hplus
    exact ⟨by simp [callToolServer, hclient, hmsg, hres, hplus], rfl⟩
  · intro e h
    simp [twilioClientHttp, isTwilioConfiguredHttp, Bool.and_eq_true] at h
    exact h.2
  · intro e h
    simp [twilioClientServer, isTwilioConfiguredServer, Bool.and_eq_true] at h
    exact h.2

/-- Witness for `recipient_validation_before_send` at concrete inputs. -/
theorem recipient_validation_before_send_witness :
    callToolPart001 envNoDefault (some "task_complete")
        (some ⟨some (asciiU "done"), none⟩) =
      ⟨.error .missingToPhoneNumber, [], none⟩ ∧
    executeTaskComplete envConfigured (some ⟨some (asciiU "done"), some "5551234567"⟩) =
      ⟨.error .e164Format, [], none⟩ ∧
    callToolServer envConfigured (some "task_complete")
        (some ⟨some (asciiU "done"), some "5551234567"⟩) =
      ⟨.error .e164Format, [], none⟩ ∧
    truthyStr envConfigured.defaultRecipient = true := by
  refine ⟨(recipient_validation_before_send.1 envNoDefault
      ⟨some (asciiU "done"), none⟩ rfl rfl rfl).1,
    (recipient_validation_before_send.2.1 envConfigured
      ⟨some (asciiU "done"), some "5551234567"⟩ "5551234567" rfl rfl rfl rfl).1,
    (recipient_validation_before_send.2.2.1 envConfigured
      ⟨some (asciiU "done"), some "5551234567"⟩ "5551234567" rfl rfl rfl rfl).1,
    recipient_validation_before_send.2.2.2.1 envConfigured rfl⟩

/-- Claim C5 (counterexample): with the account identifier, auth secret and
sender number all present but the default recipient absent, the stdio and
HTTP variants do not initialize the SMS capability (only the legacy variant
does): the default recipient gates initialization there. -/
theorem default_recipient_gates_initialization :
    truthyStr envNoDefault.accountSid = true ∧
    truthyStr envNoDefault.authToken = true ∧
    truthyStr envNoDefault.twilioPhoneNumber = true ∧
    envNoDefault.defaultRecipient = none ∧
    isTwilioConfiguredServer envNoDefault = false ∧
    isTwilioConfiguredHttp envNoDefault = false ∧
    isTwilioConfiguredPart001 envNoDefault = true := by
  exact ⟨rfl, rfl, rfl, rfl, rfl, rfl, rfl⟩

/-- Claim C5 (amended): in server.js and http-server.js the SMS capability
initializes exactly when the account identifier, auth secret, sender number
AND default recipient are all present and non-empty; only the legacy variant
initializes on the first three alone. -/
theorem twilio_initialization_characterization (e : Env) :
    (twilioClientServer e = true ↔
      truthyStr e.accountSid = true ∧ truthyStr e.authToken = true ∧
      truthyStr e.twilioPhoneNumber = true ∧ truthyStr e.defaultRecipient = true) ∧
    (twilioClientHttp e = true ↔
      truthyStr e.accountSid = true ∧ truthyStr e.authToken = true ∧
      truthyStr e.twilioPhoneNumber = true ∧ truthyStr e.defaultRecipient = true) ∧
    (twilioClientPart001 e = true ↔
      truthyStr e.accountSid = true ∧ truthyStr e.authToken = true ∧
      truthyStr e.twilioPhoneNumber = true) := by
  refine ⟨?_, ?_, ?_⟩ <;>
    simp [twilioClientServer, twilioClientHttp, twilioClientPart001,
      isTwilioConfiguredServer, isTwilioConfiguredHttp, isTwilioConfiguredPart001,
      Bool.and_eq_true, and_assoc]

/-- Claim C6 (counterexample): a request whose id is `0` — present and
recoverable from the body — is answered by the catch handler with id `null`,
because `req.body?.id || null` discards falsy ids. -/
theorem falsy_id_zero_replaced_by_null :
    postMcp envUnconfigured
        ⟨some "tools/call", some (.jsNum 0), some ⟨some "wrong_tool", none⟩⟩ =
      (.json 500 (.error .jsNull
        ⟨-32603, "Internal error", some "Unknown tool: wrong_tool"⟩), []) ∧
    JsPrim.jsNum 0 ≠ JsPrim.jsNull := by
  exact ⟨rfl, by decide⟩

/-- Claim C6 (amended): whenever routing or dispatch of a `POST /mcp`
request throws, the response is an HTTP 500 JSON-RPC error envelope with
code `-32603` and message `Internal error`, whose id equals the original
request's id when that id is present and truthy, and `null` when the id is
absent or falsy (such as `0` or the empty string). -/
theorem catch_handler_id_truthiness
    (e : Env) (req : McpRequest) (err : JsError) (s : List SendReq)
    (h : postMcpTry e req = (.error err, s)) :
    postMcp e req =
      (.json 500 (.error ((req.id.map (fun v => if v.truthy then v else .jsNull)).getD .jsNull)
        ⟨-32603, "Internal error", some err.message⟩), s) := by
  have hid : jsOrNull req.id =
      (req.id.map (fun v => if v.truthy then v else .jsNull)).getD .jsNull := by
    cases req.id <;> rfl
  simp [postMcp, h, hid]

/-- Witness for `catch_handler_id_truthiness`: an untruthy id `0` is
replaced by `null` while a truthy id `5` is echoed. -/
theorem catch_handler_id_truthiness_witness :
    postMcp envUnconfigured
        ⟨some "tools/call", some (.jsNum 0), some ⟨some "bad_tool", none⟩⟩ =
      (.json 500 (.error .jsNull
        ⟨-32603, "Internal error", some "Unknown tool: bad_tool"⟩), []) ∧
    postMcp envUnconfigured
        ⟨some "tools/call", some (.jsNum 5), some ⟨some "bad_tool", none⟩⟩ =
      (.json 500 (.error (.jsNum 5)
        ⟨-32603, "Internal error", some "Unknown tool: bad_tool"⟩), []) := by
  constructor
  · have h := catch_handler_id_truthiness envUnconfigured
      ⟨some "tools/call", some (.jsNum 0), some ⟨some "bad_tool", none⟩⟩
      (.unknownTool (some "bad_tool")) [] rfl
    simpa using h
  · have h := catch_handler_id_truthiness envUnconfigured
      ⟨some "tools/call", some (.jsNum 5), some ⟨some "bad_tool", none⟩⟩
      (.unknownTool (some "bad_tool")) [] rfl
    simpa using h

/-- Claim C7: when the SMS capability is not initialized, both tool-call
dispatchers fail with the configuration error before any message or
recipient validation and before any send, for every argument object
(including absent message and malformed recipient); the configuration error
is not one of the validation errors. -/
theorem unconfigured_fails_before_validation :
    (∀ (e : Env) (a : Option ToolArgs), twilioClientHttp e = false →
      executeTaskComplete e a = ⟨.error .notConfigured, [], none⟩) ∧
    (∀ (e : Env) (a : Option ToolArgs), twilioClientServer e = false →
      callToolServer e (some "task_complete") a = ⟨.error .notConfigured, [], none⟩) ∧
    JsError.notConfigured.isValidationError = false := by
  refine ⟨?_, ?_, rfl⟩
  · intro e a h
    simp [executeTaskComplete, h]
  · intro e a h
    simp [callToolServer, h]

/-- Witness for `unconfigured_fails_before_validation` with a missing
message and a malformed recipient. -/
theorem unconfigured_fails_before_validation_witness :
    executeTaskComplete envUnconfigured (some ⟨none, some "5551234567"⟩) =
      ⟨.error .notConfigured, [], none⟩ ∧
    callToolServer envUnconfigured (some "task_complete") (some ⟨none, some "5551234567"⟩) =
      ⟨.error .notConfigured, [], none⟩ := by
  exact ⟨unconfigured_fails_before_validation.1 envUnconfigured
      (some ⟨none, some "5551234567"⟩) rfl,
    unconfigured_fails_before_validation.2.1 envUnconfigured
      (some ⟨none, some "5551234567"⟩) rfl⟩

/-- Claim C8: when the provider send succeeds, the dispatcher's returned
value is the successful result carrying the provider's message id, for every
behaviour of the persistence sink (unconfigured, insert error, or thrown
exception): the append outcome is not observable in the caller's result. -/
theorem persistence_failure_not_observable
    (e : Env) (sid status : String) (msg : U16Str) (toP : String)
    (hclient : twilioClientHttp e = true)
    (hsend : e.send 0 = .ok ⟨sid, status⟩)
    (hne : msg.isEmpty = false)
    (hto : truthyStr (some toP) = true)
    (hplus : jsStartsWithPlus toP = true)
    (sinkB : Option (SendRecord → SinkOutcome)) :
    (executeTaskComplete {e with sink := sinkB} (some ⟨some msg, some toP⟩)).outcome =
      .ok ⟨true, sid, decide (250 < msg.length), msg.length,
        (if 250 < msg.length then 250 else msg.length), toP⟩ := by
  have hclient' : twilioClientHttp {e with sink := sinkB} = true := hclient
  by_cases hl : 250 < msg.length
  · simp [executeTaskComplete, hclient', truthyU16, hne, hto, hplus, hsend, hl, ellipsis]
    omega
  · simp [executeTaskComplete, hclient', truthyU16, hne, hto, hplus, hsend, hl]

/-- Witness for `persistence_failure_not_observable` with a sink that throws
on append. -/
theorem persistence_failure_not_observable_witness :
    (executeTaskComplete { envConfigured with sink := some (fun _ => .thrown "db down") }
        (some ⟨some (asciiU "done"), some "+15550001111"⟩)).outcome =
      .ok ⟨true, "SM123", false, 4, 4, "+15550001111"⟩ := by
  have h := persistence_failure_not_observable envConfigured "SM123" "queued"
    (asciiU "done") "+15550001111" rfl rfl rfl rfl rfl
    (some (fun _ => .thrown "db down"))
  simpa using h

/-- Claim C9 (counterexample): the legacy variant's `tools/list` descriptor
lists both `message` and `to_phone_number` as required, so `message` is not
the only required property on every transport variant. -/
theorem legacy_tools_list_requires_to_phone_number :
    listToolsPart001 = [taskCompleteDescriptorPart001] ∧
    taskCompleteDescriptorPart001.required = ["message", "to_phone_number"] ∧
    (["message", "to_phone_number"] : List String) ≠ ["message"] := by
  exact ⟨rfl, rfl, by decide⟩

/-- Claim C9 (amended): every `tools/list` response contains exactly one
descriptor named `task_complete`; in server.js and http-server.js its schema
requires only `message` (with `to_phone_number` optional), while the legacy
variant requires both `message` and `to_phone_number`. -/
theorem tools_list_descriptors (e : Env) (idv : Option JsPrim) (p : Option McpParams) :
    postMcp e ⟨some "tools/list", idv, p⟩ =
      (.json 200 (.result idv (.toolsList listToolsHttp)), []) ∧
    listToolsHttp = [taskCompleteDescriptorHttp] ∧
    listToolsServer = [taskCompleteDescriptorServer] ∧
    listToolsPart001 = [taskCompleteDescriptorPart001] ∧
    taskCompleteDescriptorHttp.name = "task_complete" ∧
    taskCompleteDescriptorServer.name = "task_complete" ∧
    taskCompleteDescriptorPart001.name = "task_complete" ∧
    taskCompleteDescriptorHttp.required = ["message"] ∧
    taskCompleteDescriptorServer.required = ["message"] ∧
    taskCompleteDescriptorHttp.propertyNames = ["message", "to_phone_number"] ∧
    taskCompleteDescriptorPart001.required = ["message", "to_phone_number"] := by
  exact ⟨rfl, rfl, rfl, rfl, rfl, rfl, rfl, rfl, rfl, rfl, rfl⟩

/-- Claim C10: on the direct HTTP POST adapter every `tools/call` failure
class — unknown tool, unconfigured SMS capability, missing message,
malformed recipient, provider send failure — is returned as the same HTTP
500 JSON-RPC envelope with code `-32603` and message `Internal error`, the
class-specific reason appearing only in the `data` field. -/
theorem http_failures_uniform_envelope :
    (∀ (e : Env) (idv : Option JsPrim) (nm : Option String) (args : Option ToolArgs),
      nm ≠ some "task_complete" →
      (postMcp e ⟨some "tools/call", idv, some ⟨nm, args⟩⟩).fst =
        .json 500 (.error (jsOrNull idv)
          ⟨-32603, "Internal error", some ((JsError.unknownTool nm).message)⟩)) ∧
    (∀ (e : Env) (idv : Option JsPrim) (args : Option ToolArgs),
      twilioClientHttp e = false →
      (postMcp e ⟨some "tools/call", idv, some ⟨some "task_complete", args⟩⟩).fst =
        .json 500 (.error (jsOrNull idv)
          ⟨-32603, "Internal error", some (JsError.notConfigured.message)⟩)) ∧
    (∀ (e : Env) (idv : Option JsPrim) (am : Option U16Str) (at' : Option String),
      twilioClientHttp e = true → truthyU16 am = false →
      (postMcp e ⟨some "tools/call", idv, some ⟨some "task_complete", some ⟨am, at'⟩⟩⟩).fst =
        .json 500 (.error (jsOrNull idv)
          ⟨-32603, "Internal error", some (JsError.missingMessage.message)⟩)) ∧
    (∀ (e : Env) (idv : Option JsPrim) (msg : U16Str) (at' : Option String) (r : String),
      twilioClientHttp e = true → msg.isEmpty = false →
      (if truthyStr at' then at' else e.defaultRecipient) = some r →
      jsStartsWithPlus r = false →
      (postMcp e ⟨some "tools/call", idv, some ⟨some "task_complete", some ⟨some msg, at'⟩⟩⟩).fst =
        .json 500 (.error (jsOrNull idv)
          ⟨-32603, "Internal error", some (JsError.e164Format.message)⟩)) ∧
    (∀ (e : Env) (idv : Option JsPrim) (msg : U16Str) (toP : String) (m : String),
      twilioClientHttp e = true → msg.isEmpty = false →
      truthyStr (some toP) = true → jsStartsWithPlus toP = true →
      e.send 0 = .error m →
      (postMcp e ⟨some "tools/call", idv,
          some ⟨some "task_complete", some ⟨some msg, some toP⟩⟩⟩).fst =
        .json 500 (.error (jsOrNull idv) ⟨-32603, "Internal error", some m⟩)) := by
  refine ⟨?_, ?_, ?_, ?_, ?_⟩
  · intro e idv nm args h
    simp [postMcp, postMcpTry, h]
  · intro e idv args h
    simp [postMcp, postMcpTry, executeTaskComplete, h, JsError.message]
  · intro e idv am at' hclient hmsg
    simp [postMcp, postMcpTry, executeTaskComplete, hclient, hmsg, JsError.message]
  · intro e idv msg at' r hclient hne hres hplus
    simp [postMcp, postMcpTry, executeTaskComplete, hclient, truthyU16, hne, hres, hplus,
      JsError.message]
  · intro e idv msg toP m hclient hne hto hplus hsend
    simp [postMcp, postMcpTry, executeTaskComplete, hclient, truthyU16, hne, hto, hplus,
      hsend, JsError.message]

/-- Witness for `http_failures_uniform_envelope`: all five failure classes
at concrete inputs. -/
theorem http_failures_uniform_envelope_witness :
    (postMcp envConfigured ⟨some "tools/call", some (.jsNum 3),
        some ⟨some "nope", none⟩⟩).fst =
      .json 500 (.error (.jsNum 3) ⟨-32603, "Internal error", some "Unknown tool: nope"⟩) ∧
    (postMcp envUnconfigured ⟨some "tools/call", some (.jsNum 3),
        some ⟨some "task_complete", none⟩⟩).fst =
      .json 500 (.error (.jsNum 3) ⟨-32603, "Internal error",
        some "Twilio client is not configured. Check environment variables."⟩) ∧
    (postMcp envConfigured ⟨some "tools/call", some (.jsNum 3),
        some ⟨some "task_complete", some ⟨none, some "+15550001111"⟩⟩⟩).fst =
      .json 500 (.error (.jsNum 3) ⟨-32603, "Internal error", some "Message is required"⟩) ∧
    (postMcp envConfigured ⟨some "tools/call", some (.jsNum 3),
        some ⟨some "task_complete", some ⟨some (asciiU "done"), some "5551234567"⟩⟩⟩).fst =
      .json 500 (.error (.jsNum 3) ⟨-32603, "Internal error",
        some "Phone number must be in E.164 format (start with +)"⟩) ∧
    (postMcp envProviderDown ⟨some "tools/call", some (.jsNum 3),
        some ⟨some "task_complete", some ⟨some (asciiU "done"), some "+15550001111"⟩⟩⟩).fst =
      .json 500 (.error (.jsNum 3) ⟨-32603, "Internal error", some "Connection refused"⟩) := by
  refine ⟨?_, ?_, ?_, ?_, ?_⟩
  · have h := http_failures_uniform_envelope.1 envConfigured (some (.jsNum 3))
      (some "nope") none (by decide)
    simpa using h
  · have h := http_failures_uniform_envelope.2.1 envUnconfigured (some (.jsNum 3)) none rfl
    simpa using h
  · have h := http_failures_uniform_envelope.2.2.1 envConfigured (some (.jsNum 3))
      none (some "+15550001111") rfl rfl
    simpa using h
  · have h := http_failures_uniform_envelope.2.2.2.1 envConfigured (some (.jsNum 3))
      (asciiU "done") (some "5551234567") "5551234567" rfl rfl rfl rfl
    simpa using h
  · have h := http_failures_uniform_envelope.2.2.2.2 envProviderDown (some (.jsNum 3))
      (asciiU "done") "+15550001111" "Connection refused" rfl rfl rfl rfl rfl
    simpa using h

end MCPNotify
